import Mathlib

set_option maxHeartbeats 1000000
set_option linter.unreachableTactic false
set_option linter.unusedTactic false
set_option linter.unnecessarySeqFocus false

/-!
Verification development for the XianTeam SBT trait-comparison front end.

The repository consists of three revisions of one browser script
(`src/public/app.js`, `src/unnamed/part_000`, `src/unnamed/part_001`).
The logic relevant to the documented claims lives in
`src/unnamed/part_000` (the revision with numeric-aware comparison,
key translation and batch updates) and `src/public/app.js`
(the revision with the debounce/re-entrancy guards around the update).

The embedding below translates those scripts into pure Lean functions:
module-level mutable variables become an explicit `AppState`, DOM and
wallet side effects become an explicit `Effect` list, and the external
fetch / wallet-bridge outcomes become explicit parameters.
-/

/-- A JavaScript value as it appears in the trait-comparison data flow:
strings, finite numbers (modelled as rationals), `NaN`, `null`, `undefined`.
JSON payloads produce only `str`, `num` and `null`; `undefined` arises from
missing-property lookups and `nan` from failed numeric coercions. -/
inductive JSVal where
  | str (s : String)
  | num (q : Rat)
  | nan
  | null
  | undefined
deriving DecidableEq, Repr

namespace Js

/-- JavaScript truthiness for the values of `JSVal`:
empty string, zero, `NaN`, `null` and `undefined` are falsy. -/
def truthy : JSVal → Bool
  | .str s => s != ""
  | .num q => decide (q ≠ 0)
  | .nan => false
  | .null => false
  | .undefined => false

/-- JavaScript `a || b`. -/
def jsOr (a b : JSVal) : JSVal := if truthy a then a else b

/-- JavaScript `a ?? b` (nullish coalescing). -/
def nullish (a b : JSVal) : JSVal :=
  match a with
  | .null => b
  | .undefined => b
  | v => v

/-- Is the character one of the JavaScript whitespace characters that
`Number(string)` strips? (Only the common ones are modelled.) -/
def isWS (c : Char) : Bool := c == ' ' || c == '\t' || c == '\n' || c == '\r'

/-- Drop leading and trailing whitespace from a character list. -/
def trimChars (cs : List Char) : List Char :=
  ((cs.dropWhile isWS).reverse.dropWhile isWS).reverse

/-- Model of `String.prototype.trim`. -/
def jsTrim (s : String) : String := String.mk (trimChars s.toList)

/-- Split a character list at the first dot, if any. -/
def splitDot : List Char → List Char × Option (List Char)
  | [] => ([], none)
  | c :: cs =>
    if c == '.' then ([], some cs)
    else
      let r := splitDot cs
      (c :: r.1, r.2)

/-- All characters are decimal digits. -/
def allDigits (cs : List Char) : Bool := cs.all (fun c => c.isDigit)

/-- Value of a digit string, most significant first. -/
def digitsToNat (cs : List Char) : Nat :=
  cs.foldl (fun a c => a * 10 + (c.toNat - 48)) 0

/-- Model of JavaScript `Number(string)` on decimal literals:
whitespace is trimmed, the empty string is `0`, an optional sign is
followed by digits with at most one decimal point (`"5."` and `".5"`
are accepted, as in JavaScript).  Exponent, hexadecimal and `Infinity`
forms are outside the model and are treated as `NaN` (`none`); no value
used in this development takes those forms. -/
def parseJsNumber (s : String) : Option Rat :=
  let t := trimChars s.toList
  if t.isEmpty then some 0
  else
    let sgbody : Bool × List Char :=
      match t with
      | '-' :: rest => (true, rest)
      | '+' :: rest => (false, rest)
      | cs => (false, cs)
    let ip := (splitDot sgbody.2).1
    match (splitDot sgbody.2).2 with
    | none =>
      if !ip.isEmpty && allDigits ip then
        let v : Int := digitsToNat ip
        some (mkRat (if sgbody.1 then -v else v) 1)
      else none
    | some fp =>
      if !(ip ++ fp).isEmpty && allDigits ip && allDigits fp then
        let den : Nat := 10 ^ fp.length
        let scaled : Int := (digitsToNat ip : Int) * (den : Int) + (digitsToNat fp : Int)
        some (mkRat (if sgbody.1 then -scaled else scaled) den)
      else none

/-- Model of JavaScript `Number(v)`: the result is either a number
(`.num`) or `.nan`. -/
def jsNumber : JSVal → JSVal
  | .num q => .num q
  | .nan => .nan
  | .null => .num 0
  | .undefined => .nan
  | .str s =>
    match parseJsNumber s with
    | some q => .num q
    | none => .nan

/-- JavaScript `<` between a coerced number and a numeric literal, as
used in `tierFromScore`: every comparison involving `NaN` is false. -/
def jsLt (v : JSVal) (c : Rat) : Bool :=
  match v with
  | .num q => decide (q < c)
  | _ => false

/-- JavaScript `===` restricted to results of `Number(...)`: two numbers
are strictly equal when they are equal rationals; `NaN === NaN` is false. -/
def strictEq (a b : JSVal) : Bool :=
  match a, b with
  | .num x, .num y => decide (x = y)
  | _, _ => false

/-- Decimal rendering of an integer, matching JavaScript `String(n)`
for integral numbers. -/
def intStr (i : Int) : String :=
  if i < 0 then "-" ++ Nat.repr i.natAbs else Nat.repr i.natAbs

/-- Model of JavaScript `String(v)`.  For non-integral numbers the exact
float formatting of JavaScript is outside the model; a fraction rendering
is used and no claim depends on it. -/
def jsString : JSVal → String
  | .str s => s
  | .num q => if q.den = 1 then intStr q.num else intStr q.num ++ "/" ++ Nat.repr q.den
  | .nan => "NaN"
  | .null => "null"
  | .undefined => "undefined"

end Js

/-- The object literal returned by `tierFromScore`:
`{ key, name, range, file }`. -/
structure TierInfo where
  key : String
  name : String
  range : String
  file : String
deriving DecidableEq, Repr

/-- Tier object for scores below 500. -/
def leafling : TierInfo := ⟨"leafling", "Leafling", "< 500", "leafling.png"⟩

/-- Tier object for scores in [500, 1500). -/
def vineCrawler : TierInfo := ⟨"vine-crawler", "Vine Crawler", "500–1,500", "vine-crawler.png"⟩

/-- Tier object for scores in [1500, 3000). -/
def canopyDweller : TierInfo := ⟨"canopy-dweller", "Canopy Dweller", "1,500–3,000", "canopy-dweller.png"⟩

/-- Tier object for scores in [3000, 5000). -/
def rainkeeper : TierInfo := ⟨"rainkeeper", "Rainkeeper", "3,000–5,000", "rainkeeper.png"⟩

/-- Tier object for scores in [5000, 10000). -/
def jaguarFang : TierInfo := ⟨"jaguar-fang", "Jaguar Fang", "5,000–10,000", "jaguar-fang.png"⟩

/-- Tier object for scores at or above 10000 (and for `NaN` scores,
which fail every `<` test). -/
def spiritOfTheJungle : TierInfo := ⟨"spirit-of-the-jungle", "Spirit of the Jungle", "10,000+", "spirit-of-the-jungle.png"⟩

/-- `tierFromScore` from `src/unnamed/part_000` lines 110–118, identical
in `src/public/app.js` lines 88–96: `const s = Number(score || 0)`
followed by ascending `<` threshold tests. -/
def tierFromScore (score : JSVal) : TierInfo :=
  let s := Js.jsNumber (Js.jsOr score (.num 0))
  if Js.jsLt s 500 then leafling
  else if Js.jsLt s 1500 then vineCrawler
  else if Js.jsLt s 3000 then canopyDweller
  else if Js.jsLt s 5000 then rainkeeper
  else if Js.jsLt s 10000 then jaguarFang
  else spiritOfTheJungle

/-- Band index of a tier object, bottom tier first; used to state
monotonicity of the tier derivation. -/
def tierIdx (t : TierInfo) : Nat :=
  if t.key == "leafling" then 0
  else if t.key == "vine-crawler" then 1
  else if t.key == "canopy-dweller" then 2
  else if t.key == "rainkeeper" then 3
  else if t.key == "jaguar-fang" then 4
  else 5

/-- Wallet identity returned by `XianWalletUtils.requestWalletInfo()`:
`{ address, truncatedAddress }`. -/
structure WalletInfo where
  address : String
  truncatedAddress : String
deriving DecidableEq, Repr

/-- One entry of the `diffs` mapping of the compare payload:
`{ off_chain, on_chain }`. -/
structure DiffEntry where
  off_chain : JSVal
  on_chain : JSVal
deriving DecidableEq, Repr

/-- The JSON payload of `GET /api/compare_traits`:
`{ address, offchain, onchain, diffs }`.  The three mappings are
modelled as association lists; an absent mapping behaves like the empty
one (both yield `undefined` on every optional-chained lookup). -/
structure CompareData where
  address : String
  offchain : List (String × JSVal)
  onchain : List (String × JSVal)
  diffs : List (String × DiffEntry)
deriving DecidableEq, Repr

/-- `obj?.[k]`: property lookup on a mapping, `undefined` when absent. -/
def getField (m : List (String × JSVal)) (k : String) : JSVal :=
  match m.lookup k with
  | some v => v
  | none => .undefined

/-- The module-level mutable variables shared by the script revisions:
`walletInfo`, `last`, `updating` (commented `// re-entrancy lock`) and
`lastClickAt` (commented `// debounce timestamp`). -/
structure AppState where
  walletInfo : Option WalletInfo
  last : Option CompareData
  updating : Bool
  lastClickAt : Int
deriving DecidableEq, Repr

/-- Payload of a `XianWalletUtils.sendTransaction` call:
`{ batch: {...} }` for `update_traits`, `{ key, value }` for
`update_trait`. -/
inductive TxPayload where
  | batch (fields : List (String × String))
  | keyValue (key value : String)
deriving DecidableEq, Repr

/-- Observable side effects of one controller invocation, in order. -/
inductive Effect where
  | alert (msg : String)
  | status (msg : String)
  | send (contract method : String) (payload : TxPayload) (stampLimit : Option Nat)
  | schedule (delayMs : Nat)
deriving DecidableEq, Repr

/-- Is the effect a `sendTransaction` call? -/
def Effect.isSend : Effect → Bool
  | .send _ _ _ _ => true
  | _ => false

/-- Result of running `updateOnChain`: the final module state, the
emitted effects in order, and whether the async function ended with an
uncaught exception (a rejected `await` with no enclosing `try`). -/
structure UpdResult where
  state : AppState
  effects : List Effect
  threw : Bool
deriving DecidableEq, Repr

/-- Does the needle occur as a contiguous substring, starting here? -/
def prefixAt : List Char → List Char → Bool
  | [], _ => true
  | _ :: _, [] => false
  | a :: as, b :: bs => a == b && prefixAt as bs

/-- Does the needle occur as a contiguous substring anywhere? -/
def occursIn (n : List Char) : List Char → Bool
  | [] => n.isEmpty
  | c :: cs => prefixAt n (c :: cs) || occursIn n cs

/-- Does `needle` occur inside `hay`?  Used to state that an alert
message does (or does not) contain an address. -/
def strOccurs (needle hay : String) : Bool := occursIn needle.toList hay.toList

/-- JavaScript object assignment `obj[k] = v` on an insertion-ordered
association list: the first binding of `k` is overwritten in place, a
new key is appended at the end. -/
def objSet : List (String × String) → String → String → List (String × String)
  | [], k, v => [(k, v)]
  | (k', v') :: rest, k, v =>
    if k' == k then (k', v) :: rest
    else (k', v') :: objSet rest k v

namespace Part000

/-- `KEYS` from `src/unnamed/part_000` lines 13–22: the tracked trait
keys, in display order. -/
def KEYS : List String :=
  ["Score", "Tier", "Stake Duration", "DEX Volume", "Pulse Influence",
   "Transaction Volume", "Bridge Volume", "Volume Played"]

/-- `isNumericKey` from `src/unnamed/part_000` lines 74–76:
every tracked key except `Tier` is numeric. -/
def isNumericKey (k : String) : Bool := k != "Tier"

/-- `equalVals` from `src/unnamed/part_000` lines 78–81: numeric keys
compare `Number(a || 0) === Number(b || 0)`, the rest compare
`String(a ?? "") === String(b ?? "")`. -/
def equalVals (k : String) (a b : JSVal) : Bool :=
  if isNumericKey k then
    Js.strictEq (Js.jsNumber (Js.jsOr a (.num 0))) (Js.jsNumber (Js.jsOr b (.num 0)))
  else
    Js.jsString (Js.nullish a (.str "")) == Js.jsString (Js.nullish b (.str ""))

/-- `UI_TO_CHAIN` from `src/unnamed/part_000` lines 210–219: the fixed
UI-name to chain-field-name translation table. -/
def UI_TO_CHAIN : List (String × String) :=
  [("Score", "Score"), ("Tier", "Tier"), ("Stake Duration", "Stake Duration"),
   ("DEX Volume", "DEX Volume"), ("Pulse Influence", "Pulse Influence"),
   ("Transaction Volume", "Trx Volume"), ("Bridge Volume", "Xian Bridged"),
   ("Volume Played", "Volume Played")]

/-- `UI_TO_CHAIN[uiKey] || uiKey`: translate a UI key, falling back to
the key itself when the table has no entry (all table values are
non-empty strings, so `||` reduces to the lookup fallback). -/
def chainKey (k : String) : String :=
  match UI_TO_CHAIN.lookup k with
  | some c => c
  | none => k

/-- The `for (const uiKey of KEYS)` loop of `updateOnChain`
(`src/unnamed/part_000` lines 233–240), generalised over the key list
for induction: each differing key writes
`toSet[chainKey] = String(of ?? "")`. -/
def diffLoop (l : CompareData) : List String → List (String × String) → List (String × String)
  | [], acc => acc
  | uiKey :: ks, acc =>
    let ck := chainKey uiKey
    let ofv := getField l.offchain uiKey
    let oc := getField l.onchain uiKey
    if equalVals uiKey ofv oc then diffLoop l ks acc
    else diffLoop l ks (objSet acc ck (Js.jsString (Js.nullish ofv (.str ""))))

/-- The `toSet` object built by `updateOnChain` in
`src/unnamed/part_000` lines 232–241: the differing-key loop followed by
the unconditional `toSet["Tier"] = derivedTier`. -/
def buildToSet (l : CompareData) : List (String × String) :=
  let offScore := Js.jsNumber (Js.jsOr (getField l.offchain "Score") (.num 0))
  let derivedTier := (tierFromScore offScore).name
  objSet (diffLoop l KEYS []) "Tier" derivedTier

/-- `CONTRACT` from `src/unnamed/part_000` line 8. -/
def CONTRACT : String := "con_sbtxian_v"

/-- `updateOnChain` from `src/unnamed/part_000` lines 221–248.
`txOk` is the outcome of the awaited
`XianWalletUtils.sendTransaction` call; a rejection propagates out of
the async function (`threw = true`) because there is no enclosing
`try`.  The module variables `updating` and `lastClickAt` are never
read or written by this revision. -/
def updateOnChain (st : AppState) (txOk : Bool) : UpdResult :=
  match st.last, st.walletInfo with
  | some l, some w =>
    if w.address != l.address then
      ⟨st, [.alert "Connect the same wallet that owns this SBT."], false⟩
    else
      let toSet := buildToSet l
      if toSet.length == 0 then ⟨st, [.status "Nothing to update."], false⟩
      else if txOk then
        ⟨st, [.send CONTRACT "update_traits" (.batch toSet) none, .schedule 1500], false⟩
      else
        ⟨st, [.send CONTRACT "update_traits" (.batch toSet) none], true⟩
  | _, _ => ⟨st, [], false⟩

end Part000

namespace App

/-- `KEYS` from `src/public/app.js` line 12. -/
def KEYS : List String :=
  ["Score", "Tier", "Stake Duration", "DEX Volume", "Total Sent XIAN"]

/-- `CONTRACT` from `src/public/app.js` line 8. -/
def CONTRACT : String := "con_sbtxian"

/-- `STAMP_LIMIT` from `src/public/app.js` line 11. -/
def STAMP_LIMIT : Nat := 25

/-- The observable part of `connectWallet` (`src/public/app.js`
lines 117–129) as invoked implicitly from `updateOnChain`:
`connectResult` is the outcome of `requestWalletInfo()`; success stores
the session and sets a connected status, failure alerts and leaves the
state unchanged. -/
def connectWallet (st : AppState) (connectResult : Option WalletInfo) :
    AppState × List Effect :=
  match connectResult with
  | some info =>
    ({ st with walletInfo := some info },
     [.status ("Connected: " ++
        (if info.truncatedAddress != "" then info.truncatedAddress else info.address))])
  | none =>
    (st, [.alert "Wallet not detected or not responding. Allow localhost/127.0.0.1 and use testnet."])

/-- `updateOnChain` from `src/public/app.js` lines 186–227.
`now` is `Date.now()` at entry, `connectResult` the outcome of the
implicit `connectWallet()` (used only when no session exists) and
`txOk` the outcome of the awaited `sendTransaction`.  The guards run in
source order: debounce, `lastClickAt = now`, re-entrancy lock, compare
check, implicit connect, strict ownership check; the transaction is
wrapped in `try`/`catch`/`finally`, the `finally` clearing `updating`. -/
def updateOnChain (st : AppState) (now : Int) (connectResult : Option WalletInfo)
    (txOk : Bool) : UpdResult :=
  if now - st.lastClickAt < 800 then ⟨st, [], false⟩
  else
    let st1 : AppState := { st with lastClickAt := now }
    if st1.updating then ⟨st1, [], false⟩
    else
      match st1.last with
      | none => ⟨st1, [.alert "Compare first."], false⟩
      | some l =>
        if l.address == "" then ⟨st1, [.alert "Compare first."], false⟩
        else
          let conn : AppState × List Effect :=
            match st1.walletInfo with
            | some _ => (st1, [])
            | none => connectWallet st1 connectResult
          let st2 := conn.1
          match st2.walletInfo with
          | none => ⟨st2, conn.2, false⟩
          | some w =>
            if w.address != l.address then
              ⟨st2, conn.2 ++
                [.alert ("Connected wallet " ++ w.address ++ " does not match " ++
                  l.address ++ ". Connect the correct wallet.")], false⟩
            else
              let newScore := Js.jsString (Js.nullish (getField l.offchain "Score") (.num 0))
              let sendEff := Effect.send CONTRACT "update_trait"
                (.keyValue "Score" newScore) (some STAMP_LIMIT)
              if txOk then
                ⟨{ st2 with updating := false },
                 conn.2 ++ [.status "Sending update_trait…", sendEff,
                   .alert "Update submitted. Re‑checking in 2s…", .schedule 2000], false⟩
              else
                ⟨{ st2 with updating := false },
                 conn.2 ++ [.status "Sending update_trait…", sendEff,
                   .alert "Failed to send transaction. Confirm the wallet prompt and ensure you’re on testnet."],
                 false⟩

end App

/-- The status line: its text and its `live` / `error` CSS classes. -/
structure StatusState where
  text : String
  live : Bool
  error : Bool
deriving DecidableEq, Repr

/-- The update button: `style.display` visibility, the `disabled`
property and the `pulse` CSS class. -/
structure BtnState where
  visible : Bool
  disabled : Bool
  pulse : Bool
deriving DecidableEq, Repr

/-- Contents of the result table element: the initial skeleton, the
loading spinner written at the start of each compare, or a rendered
comparison payload. -/
inductive TableContent where
  | skeleton
  | spinner
  | rendered (d : CompareData)
deriving DecidableEq, Repr

/-- The view state touched by `doCompare`. -/
structure UI where
  status : StatusState
  btnUpdate : BtnState
  btnRefreshVisible : Bool
  table : TableContent
  tableLoading : Bool
deriving DecidableEq, Repr

/-- The update action counts as enabled when its button is displayed
and not disabled. -/
def enabled (b : BtnState) : Bool := b.visible && !b.disabled

/-- The address resolution at the top of `doCompare`:
`(addrInput.value.trim() || walletInfo?.address || "").trim()`. -/
def resolveAddr (st : AppState) (inputAddr : String) : String :=
  let a1 := Js.jsTrim inputAddr
  let a2 := if a1 != "" then a1
    else match st.walletInfo with
      | some w => w.address
      | none => ""
  Js.jsTrim a2

/-- `doCompare` from `src/unnamed/part_000` lines 155–208; the logic is
identical in `src/public/app.js` lines 131–184 (only the internals of
`renderTable`, here abstracted to `TableContent.rendered`, differ).
`fetchResult` is the combined outcome of the awaited `fetch` and
`res.json()`: `.error` covers both a rejected fetch and a parse
failure, either of which lands in the `catch` block.  `last` is
assigned only after a successful parse. -/
def doCompare (st : AppState) (ui : UI) (inputAddr : String)
    (fetchResult : Except Unit CompareData) : AppState × UI × List Effect :=
  let addr := resolveAddr st inputAddr
  if addr == "" then (st, ui, [.alert "Enter an address or connect wallet first."])
  else
    let ui1 : UI := { ui with
      status := ⟨"Comparing…", true, false⟩
      btnUpdate := { ui.btnUpdate with visible := false, disabled := true }
      btnRefreshVisible := false
      table := .spinner
      tableLoading := true }
    match fetchResult with
    | .error _ =>
      (st,
       { ui1 with
         status := ⟨"Failed to compare traits (API error).", false, true⟩
         tableLoading := false },
       [])
    | .ok data =>
      let st1 : AppState := { st with last := some data }
      let ui2 : UI := { ui1 with table := .rendered data, tableLoading := false }
      let walletMatches : Bool :=
        match st.walletInfo with
        | some w => w.address == data.address
        | none => false
      match data.diffs.lookup "Score" with
      | some de =>
        let msg := "Difference in Score: DB=" ++ Js.jsString de.off_chain ++
          " vs Chain=" ++ Js.jsString de.on_chain ++
          (if walletMatches then "" else " — Connect the same address to update.")
        (st1,
         { ui2 with
           status := { ui2.status with text := msg }
           btnRefreshVisible := true
           btnUpdate := ⟨true, !walletMatches, walletMatches⟩ },
         [])
      | none => (st1, ui2, [])

/-- Is the effect a user alert? -/
def Effect.isAlert : Effect → Bool
  | .alert _ => true
  | _ => false

/-- Well-formedness of a compare payload: no stored value is `NaN`.
JSON cannot encode `NaN`, so every payload delivered by `res.json()`
satisfies this. -/
def CompareData.wf (d : CompareData) : Bool :=
  d.offchain.all (fun p => p.2 != JSVal.nan) && d.onchain.all (fun p => p.2 != JSVal.nan)

namespace Part000

/-- Specification-side definition, from the claim wording: numeric
coercion of a compared value with "absent treated as zero"
(`undefined` reads as zero, everything else is coerced by `Number`). -/
def specNum (v : JSVal) : JSVal :=
  match v with
  | .undefined => .num 0
  | v => Js.jsNumber v

/-- Specification-side definition, from the claim wording: the
numeric-aware value-equality policy — numeric fields compared after
numeric coercion with absent treated as zero, other fields as exact
strings (absent read as the empty string). -/
def specEqualVals (k : String) (a b : JSVal) : Bool :=
  if isNumericKey k then Js.strictEq (specNum a) (specNum b)
  else Js.jsString (Js.nullish a (.str "")) == Js.jsString (Js.nullish b (.str ""))

/-- Specification-side definition, from the claim wording: the
chain-side names of the tracked keys whose off-chain value differs
from the on-chain one under the numeric-aware policy. -/
def specDiffChainKeys (l : CompareData) : List String :=
  (KEYS.filter (fun k =>
    !specEqualVals k (getField l.offchain k) (getField l.onchain k))).map chainKey

/-- Specification-side definition, from the claim wording: the Tier
value derived from the off-chain Score (absent treated as zero)
through the fixed threshold table. -/
def specDerivedTier (l : CompareData) : String :=
  (tierFromScore (specNum (getField l.offchain "Score"))).name

/-- No tracked key differs under the script's `equalVals` policy. -/
def noDiffs (l : CompareData) : Bool :=
  KEYS.all (fun k => equalVals k (getField l.offchain k) (getField l.onchain k))

/-- Some tracked key differs under the script's `equalVals` policy. -/
def someDiff (l : CompareData) : Bool :=
  KEYS.any (fun k => !equalVals k (getField l.offchain k) (getField l.onchain k))

end Part000

/-- On an actual number, `tierFromScore` is the plain threshold lookup. -/
theorem tierFromScore_num (s : Rat) :
    tierFromScore (.num s) =
      if s < 500 then leafling
      else if s < 1500 then vineCrawler
      else if s < 3000 then canopyDweller
      else if s < 5000 then rainkeeper
      else if s < 10000 then jaguarFang
      else spiritOfTheJungle := by
  by_cases h : s = 0
  · subst h
    simp [tierFromScore, Js.jsOr, Js.truthy, Js.jsNumber, Js.jsLt]
  · simp [tierFromScore, Js.jsOr, Js.truthy, Js.jsNumber, Js.jsLt, h]

/-- The name of the tier object lies in the fixed six-element set. -/
theorem tier_name_mem (s : Rat) :
    (tierFromScore (.num s)).name ∈
      ["Leafling", "Vine Crawler", "Canopy Dweller", "Rainkeeper",
       "Jaguar Fang", "Spirit of the Jungle"] := by
  rw [tierFromScore_num]
  split_ifs <;>
    simp [leafling, vineCrawler, canopyDweller, rainkeeper, jaguarFang, spiritOfTheJungle]

/-- The tier band index is monotone in the numeric score. -/
theorem tier_mono {s t : Rat} (h : s ≤ t) :
    tierIdx (tierFromScore (.num s)) ≤ tierIdx (tierFromScore (.num t)) := by
  rw [tierFromScore_num, tierFromScore_num]
  split_ifs <;>
    simp_all [tierIdx, leafling, vineCrawler, canopyDweller, rainkeeper, jaguarFang,
      spiritOfTheJungle] <;>
    linarith

/-- Band characterisation: bottom tier exactly below 500. -/
theorem tier_band_leafling (s : Rat) :
    (tierFromScore (.num s)).name = "Leafling" ↔ s < 500 := by
  rw [tierFromScore_num]
  split_ifs <;>
    simp_all [leafling, vineCrawler, canopyDweller, rainkeeper, jaguarFang,
      spiritOfTheJungle] <;>
    linarith

/-- Band characterisation for the second tier. -/
theorem tier_band_vine (s : Rat) :
    (tierFromScore (.num s)).name = "Vine Crawler" ↔ 500 ≤ s ∧ s < 1500 := by
  rw [tierFromScore_num]
  split_ifs <;>
    simp_all [leafling, vineCrawler, canopyDweller, rainkeeper, jaguarFang,
      spiritOfTheJungle] <;>
    (first
      | linarith
      | (intro h; linarith)
      | exact ⟨by linarith, by linarith⟩)

/-- Band characterisation for the third tier. -/
theorem tier_band_canopy (s : Rat) :
    (tierFromScore (.num s)).name = "Canopy Dweller" ↔ 1500 ≤ s ∧ s < 3000 := by
  rw [tierFromScore_num]
  split_ifs <;>
    simp_all [leafling, vineCrawler, canopyDweller, rainkeeper, jaguarFang,
      spiritOfTheJungle] <;>
    (first
      | linarith
      | (intro h; linarith)
      | exact ⟨by linarith, by linarith⟩)

/-- Band characterisation for the fourth tier. -/
theorem tier_band_rain (s : Rat) :
    (tierFromScore (.num s)).name = "Rainkeeper" ↔ 3000 ≤ s ∧ s < 5000 := by
  rw [tierFromScore_num]
  split_ifs <;>
    simp_all [leafling, vineCrawler, canopyDweller, rainkeeper, jaguarFang,
      spiritOfTheJungle] <;>
    (first
      | linarith
      | (intro h; linarith)
      | exact ⟨by linarith, by linarith⟩)

/-- Band characterisation for the fifth tier. -/
theorem tier_band_jaguar (s : Rat) :
    (tierFromScore (.num s)).name = "Jaguar Fang" ↔ 5000 ≤ s ∧ s < 10000 := by
  rw [tierFromScore_num]
  split_ifs <;>
    simp_all [leafling, vineCrawler, canopyDweller, rainkeeper, jaguarFang,
      spiritOfTheJungle] <;>
    (first
      | linarith
      | (intro h; linarith)
      | exact ⟨by linarith, by linarith⟩)

/-- Band characterisation for the top tier. -/
theorem tier_band_spirit (s : Rat) :
    (tierFromScore (.num s)).name = "Spirit of the Jungle" ↔ 10000 ≤ s := by
  rw [tierFromScore_num]
  split_ifs <;>
    simp_all [leafling, vineCrawler, canopyDweller, rainkeeper, jaguarFang,
      spiritOfTheJungle] <;>
    linarith

/-- Claim C5: for every numeric score `s`, `tierFromScore` (a total
function by construction, hence deterministic) returns one of the six
tiers, is monotonically non-decreasing in the score, and its band
boundaries are exactly at 500, 1500, 3000, 5000 and 10000. -/
theorem C5_tier_total_monotone_boundaries (s t : Rat) :
    (tierFromScore (.num s)).name ∈
        ["Leafling", "Vine Crawler", "Canopy Dweller", "Rainkeeper",
         "Jaguar Fang", "Spirit of the Jungle"] ∧
      (s ≤ t → tierIdx (tierFromScore (.num s)) ≤ tierIdx (tierFromScore (.num t))) ∧
      ((tierFromScore (.num s)).name = "Leafling" ↔ s < 500) ∧
      ((tierFromScore (.num s)).name = "Vine Crawler" ↔ 500 ≤ s ∧ s < 1500) ∧
      ((tierFromScore (.num s)).name = "Canopy Dweller" ↔ 1500 ≤ s ∧ s < 3000) ∧
      ((tierFromScore (.num s)).name = "Rainkeeper" ↔ 3000 ≤ s ∧ s < 5000) ∧
      ((tierFromScore (.num s)).name = "Jaguar Fang" ↔ 5000 ≤ s ∧ s < 10000) ∧
      ((tierFromScore (.num s)).name = "Spirit of the Jungle" ↔ 10000 ≤ s) :=
  ⟨tier_name_mem s, fun h => tier_mono h, tier_band_leafling s, tier_band_vine s,
    tier_band_canopy s, tier_band_rain s, tier_band_jaguar s, tier_band_spirit s⟩

/-- Claim C5, witness: the theorem instantiated at concrete scores. -/
theorem C5_witness :
    tierIdx (tierFromScore (.num 100)) ≤ tierIdx (tierFromScore (.num 700)) ∧
      (tierFromScore (.num 100)).name = "Leafling" ∧
      (tierFromScore (.num 10000)).name = "Spirit of the Jungle" :=
  ⟨(C5_tier_total_monotone_boundaries 100 700).2.1 (by norm_num),
   ((C5_tier_total_monotone_boundaries 100 700).2.2.1).mpr (by norm_num),
   ((C5_tier_total_monotone_boundaries 10000 0).2.2.2.2.2.2.2).mpr (by norm_num)⟩

/-- Claim C6, counterexample: a non-numeric (truthy) score is NOT
coerced to zero — `Number("not a number")` is `NaN`, every threshold
comparison fails, and `tierFromScore` returns the TOP tier, not the
bottom one claimed. -/
theorem C6_counterexample :
    Js.jsNumber (.str "not a number") = .nan ∧
      (tierFromScore (.str "not a number")).name = "Spirit of the Jungle" ∧
      (tierFromScore (.str "not a number")).name ≠ "Leafling" := by
  refine ⟨by decide, by decide, by decide⟩

/-- Claim C6, amended: an absent (`undefined`/`null`) or falsy (empty
string) score is coerced to zero and maps to the bottom tier, but a
truthy non-numeric score coerces to `NaN`, fails every band comparison,
and maps to the top tier. -/
theorem C6_tier_coercion (v : JSVal) :
    ((v = .undefined ∨ v = .null ∨ v = .str "") → (tierFromScore v).name = "Leafling") ∧
      (Js.truthy v = true → Js.jsNumber v = .nan →
        (tierFromScore v).name = "Spirit of the Jungle") := by
  constructor
  · rintro (rfl | rfl | rfl) <;> decide
  · intro ht hn
    simp [tierFromScore, Js.jsOr, ht, hn, Js.jsLt, spiritOfTheJungle]

/-- Claim C6, witness: the amended theorem applied at `undefined` and
at a concrete non-numeric string. -/
theorem C6_witness :
    (tierFromScore .undefined).name = "Leafling" ∧
      (tierFromScore (.str "ten")).name = "Spirit of the Jungle" :=
  ⟨(C6_tier_coercion .undefined).1 (Or.inl rfl),
   (C6_tier_coercion (.str "ten")).2 (by decide) (by decide)⟩

/-- Object assignment then lookup: the assigned key reads back the new
value, every other key is unchanged. -/
theorem lookup_objSet (m : List (String × String)) (k v k' : String) :
    (objSet m k v).lookup k' = if k' = k then some v else m.lookup k' := by
  induction m with
  | nil =>
    by_cases h : k' = k
    · simp [objSet, List.lookup, h]
    · have hb : (k' == k) = false := beq_eq_false_iff_ne.mpr h
      simp [objSet, List.lookup, h, hb]
  | cons p rest ih =>
    obtain ⟨a, b⟩ := p
    by_cases hak : a = k
    · subst hak
      by_cases h : k' = a
      · simp [objSet, List.lookup, h]
      · have hb : (k' == a) = false := beq_eq_false_iff_ne.mpr h
        simp [objSet, List.lookup, h, hb]
    · have hab : (a == k) = false := beq_eq_false_iff_ne.mpr hak
      by_cases h : k' = a
      · subst h
        have hkk : k' ≠ k := hak
        have hkb : (k' == k) = false := beq_eq_false_iff_ne.mpr hkk
        simp [objSet, List.lookup, hab, hkk]
      · have hb : (k' == a) = false := beq_eq_false_iff_ne.mpr h
        simp [objSet, List.lookup, hab, hb, ih, h]

/-- An object is never empty after an assignment. -/
theorem objSet_ne_nil (m : List (String × String)) (k v : String) :
    objSet m k v ≠ [] := by
  cases m with
  | nil => simp [objSet]
  | cons p rest =>
    obtain ⟨a, b⟩ := p
    by_cases h : (a == k) = true <;> simp [objSet, h]

/-- Claim C1 (amended): with a comparison result and a wallet session
present but mismatched addresses, `updateOnChain` emits exactly one
alert and makes no `sendTransaction` call; in the `app.js` revision
(when neither debounced nor locked) the alert names both addresses,
while in the `part_000` revision it is a fixed message naming neither
address. -/
theorem C1_mismatch_rejected_no_send :
    (∀ (st : AppState) (txOk : Bool) (l : CompareData) (w : WalletInfo),
      st.last = some l → st.walletInfo = some w → w.address ≠ l.address →
      Part000.updateOnChain st txOk =
        ⟨st, [.alert "Connect the same wallet that owns this SBT."], false⟩) ∧
    (∀ (st : AppState) (now : Int) (cr : Option WalletInfo) (txOk : Bool)
        (l : CompareData) (w : WalletInfo),
      st.last = some l → st.walletInfo = some w → w.address ≠ l.address →
      l.address ≠ "" → st.updating = false → ¬ now - st.lastClickAt < 800 →
      App.updateOnChain st now cr txOk =
        ⟨{ st with lastClickAt := now },
         [.alert ("Connected wallet " ++ w.address ++ " does not match " ++
           l.address ++ ". Connect the correct wallet.")], false⟩) := by
  constructor
  · intro st txOk l w hl hw hne
    simp [Part000.updateOnChain, hl, hw, hne]
  · intro st now cr txOk l w hl hw hne hla hupd h800
    simp [App.updateOnChain, h800, hl, hw, hne, hla, hupd]

/-- Claim C1, counterexample: in the `part_000` revision the mismatch
alert is a fixed sentence containing neither the connected wallet
address nor the compared address, contrary to the claimed "message
containing both addresses". -/
theorem C1_counterexample :
    Part000.updateOnChain
        ⟨some ⟨"wallet_aaa", "wallet_aaa"⟩, some ⟨"record_bbb", [], [], []⟩, false, 0⟩ true =
      ⟨⟨some ⟨"wallet_aaa", "wallet_aaa"⟩, some ⟨"record_bbb", [], [], []⟩, false, 0⟩,
       [.alert "Connect the same wallet that owns this SBT."], false⟩ ∧
      strOccurs "wallet_aaa" "Connect the same wallet that owns this SBT." = false ∧
      strOccurs "record_bbb" "Connect the same wallet that owns this SBT." = false := by
  refine ⟨by decide, by decide, by decide⟩

/-- Claim C1, witness: the amended theorem applied at concrete states
for both revisions. -/
theorem C1_witness :
    Part000.updateOnChain ⟨some ⟨"A", "A"⟩, some ⟨"B", [], [], []⟩, false, 0⟩ true =
        ⟨⟨some ⟨"A", "A"⟩, some ⟨"B", [], [], []⟩, false, 0⟩,
         [.alert "Connect the same wallet that owns this SBT."], false⟩ ∧
      App.updateOnChain ⟨some ⟨"A", "A"⟩, some ⟨"B", [], [], []⟩, false, 0⟩ 1000 none true =
        ⟨⟨some ⟨"A", "A"⟩, some ⟨"B", [], [], []⟩, false, 1000⟩,
         [.alert ("Connected wallet " ++ "A" ++ " does not match " ++
           "B" ++ ". Connect the correct wallet.")], false⟩ :=
  ⟨C1_mismatch_rejected_no_send.1 _ true _ _ rfl rfl (by decide),
   C1_mismatch_rejected_no_send.2 _ 1000 none true _ _ rfl rfl (by decide) (by decide) rfl
     (by decide)⟩

/-- When every key of the list compares equal, the differing-key loop
of `updateOnChain` leaves its accumulator unchanged. -/
theorem diffLoop_eq_acc (l : CompareData) (ks : List String) (acc : List (String × String))
    (h : ∀ k ∈ ks,
      Part000.equalVals k (getField l.offchain k) (getField l.onchain k) = true) :
    Part000.diffLoop l ks acc = acc := by
  induction ks generalizing acc with
  | nil => rfl
  | cons k ks ih =>
    have hk := h k (by simp)
    simp only [Part000.diffLoop, hk, if_true]
    exact ih acc (fun k' hk' => h k' (by simp [hk']))

/-- Claim C3, counterexample: with off-chain and on-chain identical for
every tracked key (and all other preconditions passing), `part_000`'s
`updateOnChain` still submits a transaction — carrying the derived
`Tier` — and never reports "Nothing to update.". -/
theorem C3_counterexample :
    Part000.updateOnChain
        ⟨some ⟨"addr_a", "addr_a"⟩,
         some ⟨"addr_a", [("Score", .num 100)], [("Score", .num 100)], []⟩, false, 0⟩ true =
      ⟨⟨some ⟨"addr_a", "addr_a"⟩,
        some ⟨"addr_a", [("Score", .num 100)], [("Score", .num 100)], []⟩, false, 0⟩,
       [.send "con_sbtxian_v" "update_traits" (.batch [("Tier", "Leafling")]) none,
        .schedule 1500], false⟩ := by
  decide

/-- Claim C3 (amended): when no tracked field differs under the
script's equality policy and the preconditions pass, `part_000`'s
`updateOnChain` does NOT report "nothing to update": the unconditional
`toSet["Tier"]` assignment makes the batch non-empty, so the dead
"Nothing to update." branch is skipped and a transaction whose only
field is the derived `Tier` is submitted. -/
theorem C3_no_diffs_still_sends (st : AppState) (txOk : Bool) (l : CompareData)
    (w : WalletInfo) (hl : st.last = some l) (hw : st.walletInfo = some w)
    (ha : w.address = l.address) (hnd : Part000.noDiffs l = true) :
    (Part000.updateOnChain st txOk).effects.head? =
        some (.send Part000.CONTRACT "update_traits"
          (.batch [("Tier",
            (tierFromScore (Js.jsNumber (Js.jsOr (getField l.offchain "Score")
              (.num 0)))).name)]) none) ∧
      Effect.status "Nothing to update." ∉ (Part000.updateOnChain st txOk).effects := by
  have hall : ∀ k ∈ Part000.KEYS,
      Part000.equalVals k (getField l.offchain k) (getField l.onchain k) = true := by
    intro k hk
    exact List.all_eq_true.mp hnd k hk
  have hloop : Part000.diffLoop l Part000.KEYS [] = [] := diffLoop_eq_acc l _ [] hall
  have hset : Part000.buildToSet l =
      [("Tier",
        (tierFromScore (Js.jsNumber (Js.jsOr (getField l.offchain "Score") (.num 0)))).name)] := by
    simp [Part000.buildToSet, hloop, objSet]
  constructor <;> simp [Part000.updateOnChain, hl, hw, ha, hset] <;> cases txOk <;> simp

/-- Claim C3, witness: the amended theorem applied at a concrete
no-difference state. -/
theorem C3_witness :
    (Part000.updateOnChain
        ⟨some ⟨"a", "a"⟩, some ⟨"a", [("Score", .num 600)], [("Score", .num 600)], []⟩,
         false, 0⟩ true).effects.head? =
        some (.send Part000.CONTRACT "update_traits"
          (.batch [("Tier",
            (tierFromScore (Js.jsNumber (Js.jsOr
              (getField [("Score", JSVal.num 600)] "Score") (.num 0)))).name)]) none) ∧
      Effect.status "Nothing to update." ∉
        (Part000.updateOnChain
          ⟨some ⟨"a", "a"⟩, some ⟨"a", [("Score", .num 600)], [("Score", .num 600)], []⟩,
           false, 0⟩ true).effects :=
  C3_no_diffs_still_sends
    ⟨some ⟨"a", "a"⟩, some ⟨"a", [("Score", .num 600)], [("Score", .num 600)], []⟩, false, 0⟩
    true ⟨"a", [("Score", .num 600)], [("Score", .num 600)], []⟩ ⟨"a", "a"⟩
    rfl rfl rfl (by decide)

/-- For a non-`NaN` value, the script's `Number(a || 0)` coercion
agrees with the specification's "absent treated as zero" coercion. -/
theorem coerce_eq_specNum (a : JSVal) (ha : a ≠ .nan) :
    Js.jsNumber (Js.jsOr a (.num 0)) = Part000.specNum a := by
  cases a with
  | str s =>
    by_cases h : s = ""
    · subst h; decide
    · have ht : Js.truthy (.str s) = true := by simp [Js.truthy, h]
      simp [Js.jsOr, ht, Part000.specNum]
  | num q =>
    by_cases h : q = 0
    · subst h; decide
    · have ht : Js.truthy (.num q) = true := by simp [Js.truthy, h]
      simp [Js.jsOr, ht, Part000.specNum]
  | nan => exact absurd rfl ha
  | null => decide
  | undefined => decide

/-- On non-`NaN` values (all JSON-delivered values), the script's
`equalVals` coincides with the specification's numeric-aware policy. -/
theorem equalVals_eq_spec (k : String) (a b : JSVal) (ha : a ≠ .nan) (hb : b ≠ .nan) :
    Part000.equalVals k a b = Part000.specEqualVals k a b := by
  unfold Part000.equalVals Part000.specEqualVals
  rw [coerce_eq_specNum a ha, coerce_eq_specNum b hb]

/-- Field lookup on a `NaN`-free mapping never produces `NaN`. -/
theorem getField_ne_nan (m : List (String × JSVal))
    (h : m.all (fun p => p.2 != JSVal.nan) = true) (k : String) :
    getField m k ≠ .nan := by
  induction m with
  | nil => simp [getField, List.lookup]
  | cons p rest ih =>
    obtain ⟨a, v⟩ := p
    simp only [List.all_cons, Bool.and_eq_true] at h
    by_cases hk : (k == a) = true
    · have hgf : getField ((a, v) :: rest) k = v := by
        simp [getField, List.lookup, hk]
      rw [hgf]
      simpa using h.1
    · have hkf : (k == a) = false := by simpa using hk
      have hgf : getField ((a, v) :: rest) k = getField rest k := by
        simp [getField, List.lookup, hkf]
      rw [hgf]
      exact ih h.2

/-- Lookup after the differing-key loop: a key is present exactly when
it was already in the accumulator or some processed key differs and
translates to it. -/
theorem lookup_diffLoop_isSome (l : CompareData) (ks : List String)
    (acc : List (String × String)) (ck : String) :
    ((Part000.diffLoop l ks acc).lookup ck).isSome =
      (ks.any (fun k => Part000.chainKey k == ck &&
          !Part000.equalVals k (getField l.offchain k) (getField l.onchain k)) ||
        (acc.lookup ck).isSome) := by
  induction ks generalizing acc with
  | nil => simp [Part000.diffLoop]
  | cons k ks ih =>
    by_cases he : Part000.equalVals k (getField l.offchain k) (getField l.onchain k) = true
    · simp [Part000.diffLoop, he, ih]
    · have hef : Part000.equalVals k (getField l.offchain k) (getField l.onchain k) = false := by
        simpa using he
      simp only [Part000.diffLoop, hef, Bool.false_eq_true, if_false, List.any_cons]
      rw [ih, lookup_objSet]
      by_cases hc : ck = Part000.chainKey k
      · have hcb : (Part000.chainKey k == ck) = true := by simp [hc]
        simp [hc, hcb, hef]
      · have hcb : (Part000.chainKey k == ck) = false :=
          beq_eq_false_iff_ne.mpr (fun hh => hc hh.symm)
        simp [hc, hcb, hef]

/-- Membership in the specification-side differing-key list. -/
theorem mem_specDiffChainKeys (l : CompareData) (ck : String) :
    ck ∈ Part000.specDiffChainKeys l ↔
      ∃ k, k ∈ Part000.KEYS ∧
        Part000.specEqualVals k (getField l.offchain k) (getField l.onchain k) = false ∧
          Part000.chainKey k = ck := by
  unfold Part000.specDiffChainKeys
  simp only [List.mem_map, List.mem_filter, Bool.not_eq_true']
  constructor
  · rintro ⟨k, ⟨hk, hne⟩, hck⟩
    exact ⟨k, hk, hne, hck⟩
  · rintro ⟨k, hk, hne, hck⟩
    exact ⟨k, ⟨hk, hne⟩, hck⟩

/-- The keys of the batch built by `part_000`'s `updateOnChain`:
exactly `Tier` plus the chain names of the keys differing under the
numeric-aware policy. -/
theorem buildToSet_keys (l : CompareData) (hwf : l.wf = true) (ck : String) :
    ((Part000.buildToSet l).lookup ck).isSome = true ↔
      (ck = "Tier" ∨ ck ∈ Part000.specDiffChainKeys l) := by
  simp only [CompareData.wf, Bool.and_eq_true] at hwf
  have hoff := getField_ne_nan l.offchain hwf.1
  have hon := getField_ne_nan l.onchain hwf.2
  unfold Part000.buildToSet
  rw [lookup_objSet]
  by_cases hck : ck = "Tier"
  · simp [hck]
  · rw [if_neg hck]
    rw [lookup_diffLoop_isSome]
    simp only [List.lookup, Option.isSome_none, Bool.or_false]
    rw [mem_specDiffChainKeys]
    simp only [List.any_eq_true, Bool.and_eq_true, Bool.not_eq_true']
    constructor
    · rintro ⟨k, hk, hcb, hne⟩
      refine Or.inr ⟨k, hk, ?_, by simpa using hcb⟩
      rw [← equalVals_eq_spec k _ _ (hoff k) (hon k)]
      exact hne
    · rintro (h | ⟨k, hk, hne, hcb⟩)
      · exact absurd h hck
      · refine ⟨k, hk, by simp [hcb], ?_⟩
        rw [equalVals_eq_spec k _ _ (hoff k) (hon k)]
        exact hne

/-- The `Tier` entry of the built batch carries the tier derived from
the off-chain Score through the threshold table. -/
theorem buildToSet_tier (l : CompareData) (hwf : l.wf = true) :
    (Part000.buildToSet l).lookup "Tier" = some (Part000.specDerivedTier l) := by
  simp only [CompareData.wf, Bool.and_eq_true] at hwf
  have hoff := getField_ne_nan l.offchain hwf.1
  unfold Part000.buildToSet Part000.specDerivedTier
  rw [lookup_objSet, if_pos rfl, coerce_eq_specNum _ (hoff "Score")]

/-- Claim C4: for every `part_000` update that submits a transaction
(preconditions passing, `NaN`-free JSON payload), the submitted batch
is exactly: each tracked key whose off-chain value differs from its
on-chain value under the numeric-aware policy, renamed through the
fixed `UI_TO_CHAIN` table, plus always a `Tier` entry derived from the
off-chain Score through the fixed threshold table. -/
theorem C4_update_field_set (st : AppState) (txOk : Bool) (l : CompareData)
    (w : WalletInfo) (hl : st.last = some l) (hw : st.walletInfo = some w)
    (ha : w.address = l.address) (hwf : l.wf = true) :
    (Part000.updateOnChain st txOk).effects.head? =
        some (.send Part000.CONTRACT "update_traits" (.batch (Part000.buildToSet l)) none) ∧
      (Part000.buildToSet l).lookup "Tier" = some (Part000.specDerivedTier l) ∧
      ∀ ck : String, ((Part000.buildToSet l).lookup ck).isSome = true ↔
        (ck = "Tier" ∨ ck ∈ Part000.specDiffChainKeys l) := by
  have hnn : Part000.buildToSet l ≠ [] := by
    unfold Part000.buildToSet
    apply objSet_ne_nil
  have hlen : ((Part000.buildToSet l).length == 0) = false := by
    cases hbs : Part000.buildToSet l with
    | nil => exact absurd hbs hnn
    | cons p rest => simp
  refine ⟨?_, buildToSet_tier l hwf, buildToSet_keys l hwf⟩
  cases txOk <;> simp [Part000.updateOnChain, hl, hw, ha, hlen]

/-- Claim C4, witness: the theorem applied at a concrete state whose
Score differs (120 off-chain vs 100 on-chain), with the key-membership
component instantiated at `"Score"`. -/
theorem C4_witness :
    (Part000.updateOnChain
        ⟨some ⟨"own", "own"⟩,
         some ⟨"own", [("Score", .num 120)], [("Score", .num 100)], []⟩, false, 0⟩
        true).effects.head? =
        some (.send Part000.CONTRACT "update_traits"
          (.batch (Part000.buildToSet
            ⟨"own", [("Score", .num 120)], [("Score", .num 100)], []⟩)) none) ∧
      (Part000.buildToSet
          ⟨"own", [("Score", .num 120)], [("Score", .num 100)], []⟩).lookup "Tier" =
        some (Part000.specDerivedTier
          ⟨"own", [("Score", .num 120)], [("Score", .num 100)], []⟩) ∧
      (((Part000.buildToSet
          ⟨"own", [("Score", .num 120)], [("Score", .num 100)], []⟩).lookup "Score").isSome
          = true ↔
        ("Score" = "Tier" ∨ "Score" ∈ Part000.specDiffChainKeys
          ⟨"own", [("Score", .num 120)], [("Score", .num 100)], []⟩)) := by
  have h := C4_update_field_set
    ⟨some ⟨"own", "own"⟩,
     some ⟨"own", [("Score", .num 120)], [("Score", .num 100)], []⟩, false, 0⟩
    true ⟨"own", [("Score", .num 120)], [("Score", .num 100)], []⟩ ⟨"own", "own"⟩
    rfl rfl rfl (by decide)
  exact ⟨h.1, h.2.1, h.2.2 "Score"⟩

/-- Claim C2, counterexample: after a successful compare whose payload
has a differing tracked key (DEX Volume 5 vs 10, numeric-aware) but no
`Score` entry in `diffs`, with the connected wallet owning the record,
the update action remains disabled — enablement is keyed on the
server-provided `diffs.Score` entry alone, not on "at least one
tracked field differs". -/
theorem C2_counterexample :
    (doCompare ⟨some ⟨"a", "a"⟩, none, false, 0⟩
        ⟨⟨"", false, false⟩, ⟨false, true, false⟩, false, .skeleton, false⟩ "a"
        (.ok ⟨"a", [("DEX Volume", .num 5)], [("DEX Volume", .num 10)], []⟩)).1.last =
        some ⟨"a", [("DEX Volume", .num 5)], [("DEX Volume", .num 10)], []⟩ ∧
      Part000.someDiff ⟨"a", [("DEX Volume", .num 5)], [("DEX Volume", .num 10)], []⟩ = true ∧
      ("a" : String) = "a" ∧
      enabled (doCompare ⟨some ⟨"a", "a"⟩, none, false, 0⟩
        ⟨⟨"", false, false⟩, ⟨false, true, false⟩, false, .skeleton, false⟩ "a"
        (.ok ⟨"a", [("DEX Volume", .num 5)], [("DEX Volume", .num 10)], []⟩)).2.1.btnUpdate =
        false := by
  refine ⟨by decide, by decide, rfl, by decide⟩

/-- Claim C2 (amended): after every compare invocation that passes the
input check, the update action is enabled iff the fetch and parse
succeeded, the response's `diffs` mapping contains a `Score` entry,
and the connected wallet address equals the response's address;
whether other tracked fields differ plays no role.  The same
`doCompare` embeds both revisions. -/
theorem C2_update_enabled_iff (st : AppState) (ui : UI) (inputAddr : String)
    (fr : Except Unit CompareData) (haddr : resolveAddr st inputAddr ≠ "") :
    enabled (doCompare st ui inputAddr fr).2.1.btnUpdate =
      (match fr with
       | .ok d => ((d.diffs.lookup "Score").isSome &&
           (match st.walletInfo with
            | some w => w.address == d.address
            | none => false))
       | .error _ => false) := by
  have hb : (resolveAddr st inputAddr == "") = false := beq_eq_false_iff_ne.mpr haddr
  cases fr with
  | error e => simp [doCompare, hb, enabled]
  | ok d =>
    cases hs : d.diffs.lookup "Score" with
    | none => simp [doCompare, hb, hs, enabled]
    | some de =>
      cases hwi : st.walletInfo with
      | none => simp [doCompare, hb, hs, hwi, enabled]
      | some w => simp [doCompare, hb, hs, hwi, enabled]

/-- Claim C2, witness: with a `Score` entry in `diffs` and a matching
wallet, the amended theorem yields an enabled update action. -/
theorem C2_witness :
    resolveAddr ⟨some ⟨"a", "a"⟩, none, false, 0⟩ "a" ≠ "" ∧
      enabled (doCompare ⟨some ⟨"a", "a"⟩, none, false, 0⟩
        ⟨⟨"", false, false⟩, ⟨false, true, false⟩, false, .skeleton, false⟩ "a"
        (.ok ⟨"a", [("Score", .num 120)], [("Score", .num 100)],
          [("Score", ⟨.num 120, .num 100⟩)]⟩)).2.1.btnUpdate = true := by
  refine ⟨by decide, ?_⟩
  have h := C2_update_enabled_iff ⟨some ⟨"a", "a"⟩, none, false, 0⟩
    ⟨⟨"", false, false⟩, ⟨false, true, false⟩, false, .skeleton, false⟩ "a"
    (.ok ⟨"a", [("Score", .num 120)], [("Score", .num 100)],
      [("Score", ⟨.num 120, .num 100⟩)]⟩) (by decide)
  rw [h]
  decide

/-- Claim C9: when the fetch or parse fails on a compare invocation
that reached the network call, the status is set to the API-error
state (`error` class on, `live` class off) and the result display
keeps the cleared spinner content written at the start of the call —
the prior rendered result is not left on screen.  The same `doCompare`
embeds both revisions. -/
theorem C9_compare_failure_clears (st : AppState) (ui : UI) (inputAddr : String)
    (haddr : resolveAddr st inputAddr ≠ "") :
    (doCompare st ui inputAddr (.error ())).2.1.status.text =
        "Failed to compare traits (API error)." ∧
      (doCompare st ui inputAddr (.error ())).2.1.status.error = true ∧
      (doCompare st ui inputAddr (.error ())).2.1.status.live = false ∧
      (doCompare st ui inputAddr (.error ())).2.1.table = .spinner ∧
      (doCompare st ui inputAddr (.error ())).2.1.tableLoading = false := by
  have hb : (resolveAddr st inputAddr == "") = false := beq_eq_false_iff_ne.mpr haddr
  simp [doCompare, hb]

/-- Claim C9, witness: the theorem applied to a view still showing a
previously rendered result. -/
theorem C9_witness :
    (doCompare ⟨none, none, false, 0⟩
        ⟨⟨"old status", true, false⟩, ⟨true, false, true⟩, true,
         .rendered ⟨"x", [], [], []⟩, false⟩ "addr1" (.error ())).2.1.status.text =
        "Failed to compare traits (API error)." ∧
      (doCompare ⟨none, none, false, 0⟩
        ⟨⟨"old status", true, false⟩, ⟨true, false, true⟩, true,
         .rendered ⟨"x", [], [], []⟩, false⟩ "addr1" (.error ())).2.1.status.error = true ∧
      (doCompare ⟨none, none, false, 0⟩
        ⟨⟨"old status", true, false⟩, ⟨true, false, true⟩, true,
         .rendered ⟨"x", [], [], []⟩, false⟩ "addr1" (.error ())).2.1.status.live = false ∧
      (doCompare ⟨none, none, false, 0⟩
        ⟨⟨"old status", true, false⟩, ⟨true, false, true⟩, true,
         .rendered ⟨"x", [], [], []⟩, false⟩ "addr1" (.error ())).2.1.table = .spinner ∧
      (doCompare ⟨none, none, false, 0⟩
        ⟨⟨"old status", true, false⟩, ⟨true, false, true⟩, true,
         .rendered ⟨"x", [], [], []⟩, false⟩ "addr1" (.error ())).2.1.tableLoading = false :=
  C9_compare_failure_clears ⟨none, none, false, 0⟩
    ⟨⟨"old status", true, false⟩, ⟨true, false, true⟩, true,
     .rendered ⟨"x", [], [], []⟩, false⟩ "addr1" (by decide)

/-- Claim C10: a failed fetch or parse leaves the stored last
comparison result unchanged — `last` is assigned only after a
successful parse, so a failed comparison never installs a partial
result (the whole module state is in fact unchanged).  The same
`doCompare` embeds both revisions. -/
theorem C10_failed_compare_keeps_last (st : AppState) (ui : UI) (inputAddr : String) :
    (doCompare st ui inputAddr (.error ())).1.last = st.last ∧
      (doCompare st ui inputAddr (.error ())).1 = st := by
  by_cases h : (resolveAddr st inputAddr == "") = true
  · simp [doCompare, h]
  · have hb : (resolveAddr st inputAddr == "") = false := by simpa using h
    simp [doCompare, hb]

/-- Claim C7 (code bug in `part_000`): that revision declares
`lastClickAt` ("debounce timestamp") and `updating` ("re-entrancy
lock") but never reads either, so two back-to-back update invocations
well under 800ms apart BOTH submit transactions; the `app.js` revision
implements the claimed behaviour — the first call at `t = 1000`
submits and the second at `t = 1400` (400ms later) is a
state-preserving no-op with no side effect. -/
theorem C7_debounce_divergence :
    (Part000.updateOnChain
        ⟨some ⟨"a", "a"⟩, some ⟨"a", [("Score", .str "120")], [("Score", .str "100")], []⟩,
         false, 0⟩ true).effects.any Effect.isSend = true ∧
      (Part000.updateOnChain
        (Part000.updateOnChain
          ⟨some ⟨"a", "a"⟩, some ⟨"a", [("Score", .str "120")], [("Score", .str "100")], []⟩,
           false, 0⟩ true).state true).effects.any Effect.isSend = true ∧
      (App.updateOnChain
        ⟨some ⟨"a", "a"⟩, some ⟨"a", [("Score", .str "120")], [("Score", .str "100")], []⟩,
         false, 0⟩ 1000 none true).effects.any Effect.isSend = true ∧
      App.updateOnChain
        (App.updateOnChain
          ⟨some ⟨"a", "a"⟩, some ⟨"a", [("Score", .str "120")], [("Score", .str "100")], []⟩,
           false, 0⟩ 1000 none true).state 1400 none true =
        ⟨(App.updateOnChain
          ⟨some ⟨"a", "a"⟩, some ⟨"a", [("Score", .str "120")], [("Score", .str "100")], []⟩,
           false, 0⟩ 1000 none true).state, [], false⟩ := by
  refine ⟨by decide, by decide, by decide, by decide⟩

/-- Claim C8 (code bug in `part_000`): in that revision the
`sendTransaction` await has no `try`/`catch`/`finally`, so a rejected
submission produces NO user alert (the exception escapes the async
handler) and the declared `updating` "re-entrancy lock" is never
touched; the `app.js` revision implements the claimed behaviour — on a
rejected submission it alerts and its `finally` releases the busy
lock. -/
theorem C8_tx_failure_divergence :
    (Part000.updateOnChain
        ⟨some ⟨"b", "b"⟩, some ⟨"b", [("Score", .str "300")], [("Score", .str "200")], []⟩,
         false, 0⟩ false).threw = true ∧
      (Part000.updateOnChain
        ⟨some ⟨"b", "b"⟩, some ⟨"b", [("Score", .str "300")], [("Score", .str "200")], []⟩,
         false, 0⟩ false).effects.any Effect.isAlert = false ∧
      Effect.alert
          "Failed to send transaction. Confirm the wallet prompt and ensure you’re on testnet." ∈
        (App.updateOnChain
          ⟨some ⟨"b", "b"⟩, some ⟨"b", [("Score", .str "300")], [("Score", .str "200")], []⟩,
           false, 0⟩ 1000 none false).effects ∧
      (App.updateOnChain
        ⟨some ⟨"b", "b"⟩, some ⟨"b", [("Score", .str "300")], [("Score", .str "200")], []⟩,
         false, 0⟩ 1000 none false).state.updating = false ∧
      (App.updateOnChain
        ⟨some ⟨"b", "b"⟩, some ⟨"b", [("Score", .str "300")], [("Score", .str "200")], []⟩,
         false, 0⟩ 1000 none false).threw = false := by
  refine ⟨by decide, by decide, by decide, by decide, by decide⟩
